import Mathlib

/-!
Shallow embedding of the scraper pipeline of this repository
(`src/linkedin-scraper.js`, the scheduled crawler, and `src/server.js`,
the on-demand HTTP variant).  Pure computations of the JavaScript source
are translated into Lean functions; the browser, the Airtable store and
the network are modelled as explicit parameters (oracles) supplying the
outcomes the external world would produce.  JavaScript string/number
semantics that the code relies on (truthiness, `trim`, `substring`,
`String.prototype.match` with the numeric patterns the code uses,
`parseInt`, `includes`, `replace`) are modelled by the `js*` helpers.
-/

namespace LinkedScraper

/-- JS truthiness of a nullable string: `null`/`undefined` and `""` are falsy. -/
def jsTruthyS (o : Option String) : Bool :=
  match o with
  | some s => !(s == "")
  | none => false

/-- JS `a || b` on nullable strings (first truthy operand, else `b`). -/
def jsOrS (a b : Option String) : Option String :=
  if jsTruthyS a then a else b

/-- JS `n || d` on a nullable number (`0` is falsy). -/
def jsOrNat (o : Option Nat) (d : Nat) : Nat :=
  match o with
  | some n => if n == 0 then d else n
  | none => d

/-- `pat` is a prefix of `s` (character lists). -/
def prefixAt : List Char → List Char → Bool
  | [], _ => true
  | _ :: _, [] => false
  | p :: ps, c :: cs => p == c && prefixAt ps cs

/-- `pat` occurs contiguously inside `s` (character lists). -/
def infixAt (pat : List Char) : List Char → Bool
  | [] => prefixAt pat []
  | c :: cs => prefixAt pat (c :: cs) || infixAt pat cs

/-- JS `String.prototype.includes`. -/
def jsIncludes (s pat : String) : Bool :=
  infixAt pat.data s.data

/-- Whitespace for the purposes of `String.prototype.trim`. -/
def isWS (c : Char) : Bool :=
  c == ' ' || c == '\t' || c == '\n' || c == '\r' || c == '\x0c'

/-- JS `String.prototype.trim`: strip leading and trailing whitespace. -/
def jsTrim (s : String) : String :=
  ⟨((s.data.dropWhile isWS).reverse.dropWhile isWS).reverse⟩

/-- JS `s.substring(0, n)`: the first `n` characters of `s`. -/
def jsSubstringTo (s : String) (n : Nat) : String :=
  ⟨s.data.take n⟩

/-- JS `s.replace(/\/$/, '')`: drop one trailing slash. -/
def stripTrailingSlash (s : String) : String :=
  match s.data.reverse with
  | '/' :: rest => ⟨rest.reverse⟩
  | _ => s

/-- JS `replace` of every dash with a space (the global dash regex). -/
def jsReplaceDashes (s : String) : String :=
  ⟨s.data.map (fun c => if c == '-' then ' ' else c)⟩

/-- Numeric value of a decimal digit character. -/
def digitVal (c : Char) : Nat := c.toNat - 48

/-- A character matched by the `[\d,.]` part of the numeric patterns. -/
def numChar (c : Char) : Bool := c.isDigit || c == ',' || c == '.'

/-- First match of the pattern `\d+[\d,.]*` in a character list:
the first digit together with the maximal following run of digits,
commas and dots; `none` when the string holds no digit. -/
def firstNumRun : List Char → Option (List Char)
  | [] => none
  | c :: rest =>
      if c.isDigit then some (c :: rest.takeWhile numChar)
      else firstNumRun rest

/-- First match of the pattern `\d+` in a character list. -/
def firstDigitRun : List Char → Option (List Char)
  | [] => none
  | c :: rest =>
      if c.isDigit then some (c :: rest.takeWhile Char.isDigit)
      else firstDigitRun rest

/-- JS `.replace(/[,\.]/g, '')`: drop every comma and dot. -/
def stripSeps (l : List Char) : List Char :=
  l.filter (fun c => !(c == ',' || c == '.'))

/-- `parseInt` on a string of decimal digits. -/
def parseDigits (l : List Char) : Nat :=
  l.foldl (fun a c => a * 10 + digitVal c) 0

/-- `text.match(/(\d+[\d,\.]*)/)` followed by
`parseInt(m[1].replace(/[,\.]/g, ''))`, as a JS number (integer). -/
def jsMatchNum (s : String) : Option Int :=
  (firstNumRun s.data).map (fun g => (parseDigits (stripSeps g) : Int))

/-- `text.match(/(\d+)/)` followed by `parseInt(m[1])`. -/
def jsMatchDigits (s : String) : Option Int :=
  (firstDigitRun s.data).map (fun g => (parseDigits g : Int))

/-- The recurring engagement idiom
`if (el) { const m = text.match(numeric); if (m) v = parseInt(...); }`
with `v` initialized to 0: the parsed value when the element exists and
its text holds a match, else 0. -/
def jsNumOrZero (o : Option String) : Int :=
  match o with
  | some t =>
      match jsMatchNum t with
      | some v => v
      | none => 0
  | none => 0

/-- Same idiom with the digits-only pattern `(\d+)`. -/
def jsDigitsOrZero (o : Option String) : Int :=
  match o with
  | some t =>
      match jsMatchDigits t with
      | some v => v
      | none => 0
  | none => 0

/-- First match of `([^\/]+)` right after the first occurrence of
`marker`, as used by the author-name regexes of `src/server.js`
lines 72–84. -/
def afterFirst (marker : List Char) : List Char → Option (List Char)
  | [] => if marker == ([] : List Char) then some [] else none
  | c :: cs =>
      if prefixAt marker (c :: cs) then some ((c :: cs).drop marker.length)
      else afterFirst marker cs

/-- The captured `([^\/]+)` group following `marker` inside `url`
(`none` when the marker is absent or the group would be empty). -/
def matchSegmentAfter (marker url : String) : Option String :=
  match afterFirst marker.data url.data with
  | some rest =>
      let seg := rest.takeWhile (fun c => !(c == '/'))
      if seg == ([] : List Char) then none else some ⟨seg⟩
  | none => none

/-!
## Persistence (Deduplicator+Persister)

`src/linkedin-scraper.js` lines 71–113: `postExists` queries the
`LinkedIn Posts` table by `Post URL` exact match; on a store error it
logs and returns `false` (line 83).  `savePost` creates one record.
Lines 566–590 of `scrapeProfilePosts` run the persist loop: for each
extracted post, skip when `postExists`, otherwise `savePost` and count.
`src/server.js` lines 426–458 (`saveResultsToAirtable`) run the same
check-then-create loop per post.
-/

/-- One extracted post as produced by the `page.evaluate` of
`scrapeProfilePosts` (`src/linkedin-scraper.js` lines 545–554). -/
structure ScraperPost where
  content : String
  date : String
  postUrl : String
  likes : Int
  comments : Int
  shares : Int
  hasMedia : Bool
  mediaUrl : String
deriving DecidableEq

/-- One record of the `LinkedIn Posts` table, with the fields written by
`savePost` (`src/linkedin-scraper.js` lines 89–106). -/
structure StoredRec where
  authorName : String
  authorProfileUrl : String
  group : String
  content : String
  date : String
  postUrl : String
  likes : Int
  comments : Int
  shares : Int
  hasMedia : Bool
  mediaUrl : String
  status : String
deriving DecidableEq

/-- The record `savePost` creates for a post plus its source context
(`src/linkedin-scraper.js` lines 89–106, called at lines 571–585). -/
def mkRec (authorName profileUrl group : String) (p : ScraperPost) : StoredRec :=
  { authorName := authorName
    authorProfileUrl := profileUrl
    group := group
    content := p.content
    date := p.date
    postUrl := p.postUrl
    likes := p.likes
    comments := p.comments
    shares := p.shares
    hasMedia := p.hasMedia
    mediaUrl := p.mediaUrl
    status := "New" }

/-- `postExists` against a store that answers existence queries
consistently with its contents: the `Post URL = url` filtered select
returns a record iff one with that exact URL is stored
(`src/linkedin-scraper.js` lines 71–80). -/
def postExistsL (store : List StoredRec) (url : String) : Bool :=
  store.any (fun r => r.postUrl == url)

/-- The persist loop of `scrapeProfilePosts`
(`src/linkedin-scraper.js` lines 566–590) against a consistent store
whose writes succeed: for each post, skip when `postExists`, otherwise
create the record and count it.  Returns the final store and
`newPostsCount`. -/
def persistLoop (an pu g : String) :
    List StoredRec → List ScraperPost → List StoredRec × Nat
  | store, [] => (store, 0)
  | store, p :: rest =>
      if postExistsL store p.postUrl then
        persistLoop an pu g store rest
      else
        let st' := store ++ [mkRec an pu g p]
        let r := persistLoop an pu g st' rest
        (r.1, r.2 + 1)

/-- Outcome of one `Post URL` existence query, allowing the query
itself to fail with a store error. -/
inductive QueryOutcome where
  | ok (found : Bool)
  | storeError (msg : String)
deriving DecidableEq

/-- `postExists` as written (`src/linkedin-scraper.js` lines 71–85):
the value the function returns for a given query outcome — a store
error is caught, logged, and reported as `false` (line 83). -/
def postExistsJS (q : QueryOutcome) : Bool :=
  match q with
  | .ok found => found
  | .storeError _ => false

/-- The persist loop with each existence query's outcome supplied
explicitly (one outcome per post), so that store errors during the
check can be exercised.  Mirrors `src/linkedin-scraper.js`
lines 566–590 with `postExists` replaced by its caught result. -/
def persistRunE (an pu g : String) :
    List StoredRec → List (ScraperPost × QueryOutcome) → List StoredRec × Nat
  | store, [] => (store, 0)
  | store, (p, q) :: rest =>
      if postExistsJS q then
        persistRunE an pu g store rest
      else
        let st' := store ++ [mkRec an pu g p]
        let r := persistRunE an pu g st' rest
        (r.1, r.2 + 1)

/-!
## NavigationRetrier (`safeGoto`, `src/linkedin-scraper.js` lines 119–152)

One `page.goto` attempt either resolves to an OK response, resolves to a
non-OK (or null) response, or throws.  The loop runs `CONFIG.MAX_RETRIES = 3`
attempts; an OK response returns `true` immediately; a throw is caught and,
when another attempt remains (`i < MAX_RETRIES - 1`), the code awaits
`(i + 1) * 5000` ms before continuing (lines 143–147); a non-OK response
merely logs and continues.  After the loop the function returns `false`.
-/

/-- Outcome of a single `page.goto` call. -/
inductive NavOutcome where
  | ok
  | nonOk (status : Option Nat)
  | threw (msg : String)
deriving DecidableEq

/-- `true` iff the attempt threw (reached the `catch` block). -/
def navThrew : NavOutcome → Bool
  | .threw _ => true
  | _ => false

/-- The retry loop of `safeGoto` from attempt index `i` with `fuel`
iterations remaining.  Returns `(result, attempts issued, backoff
delays awaited in ms, in order)`.  The delay is issued only on the
`catch` path and only when `i < maxRetries - 1`, exactly as in
`src/linkedin-scraper.js` lines 140–148. -/
def safeGotoAux (attempts : Nat → NavOutcome) (maxRetries : Nat) :
    Nat → Nat → Bool × Nat × List Nat
  | _, 0 => (false, 0, [])
  | i, fuel + 1 =>
      match attempts i with
      | .ok => (true, 1, [])
      | .nonOk _ =>
          let r := safeGotoAux attempts maxRetries (i + 1) fuel
          (r.1, r.2.1 + 1, r.2.2)
      | .threw _ =>
          let r := safeGotoAux attempts maxRetries (i + 1) fuel
          if i < maxRetries - 1 then (r.1, r.2.1 + 1, (i + 1) * 5000 :: r.2.2)
          else (r.1, r.2.1 + 1, r.2.2)

/-- `safeGoto` with `CONFIG.MAX_RETRIES = 3`, parameterized by the
outcome of each attempt. -/
def safeGoto (attempts : Nat → NavOutcome) : Bool × Nat × List Nat :=
  safeGotoAux attempts 3 0 3

/-!
## Post-login heuristic

`src/linkedin-scraper.js` lines 201–241 (`checkIfLoggedIn`): five DOM
signals are collected, the positives counted, the URL tested for
`/feed`, `/mynetwork` or `/in/`; logged in iff at least two signals, or
at least one signal and a matching URL.
`src/server.js` lines 105–120 has a reduced variant with only two DOM
signals, OR-ed directly with the URL tests.
-/

/-- The signal vector `page.evaluate` returns to `checkIfLoggedIn`
(`src/linkedin-scraper.js` lines 204–214). -/
structure LoginChecks where
  hasGlobalNav : Bool
  hasProfileIcon : Bool
  hasFeedContent : Bool
  hasSearchBar : Bool
  hasMessaging : Bool
  url : String
deriving DecidableEq

/-- `[ ... ].filter(Boolean).length` over the five signals
(`src/linkedin-scraper.js` lines 219–225). -/
def positiveChecks (c : LoginChecks) : Nat :=
  ([c.hasGlobalNav, c.hasProfileIcon, c.hasFeedContent, c.hasSearchBar,
    c.hasMessaging].filter (fun b => b)).length

/-- The URL corroboration test (`src/linkedin-scraper.js` lines 227–229). -/
def urlCheckJS (c : LoginChecks) : Bool :=
  jsIncludes c.url "/feed" || jsIncludes c.url "/mynetwork" || jsIncludes c.url "/in/"

/-- `checkIfLoggedIn` of `src/linkedin-scraper.js` (line 231):
`positiveChecks >= 2 || (positiveChecks >= 1 && urlCheck)`. -/
def checkIfLoggedIn (c : LoginChecks) : Bool :=
  decide (2 ≤ positiveChecks c) || (decide (1 ≤ positiveChecks c) && urlCheckJS c)

/-- The signal vector of the reduced `checkIfLoggedIn` of
`src/server.js` (lines 107–113). -/
structure ServerChecks where
  hasGlobalNav : Bool
  hasProfileIcon : Bool
  url : String
deriving DecidableEq

/-- `checkIfLoggedIn` of `src/server.js` (lines 115–116): a plain OR of
the two DOM signals and the two URL tests. -/
def serverCheckIfLoggedIn (c : ServerChecks) : Bool :=
  c.hasGlobalNav || c.hasProfileIcon ||
    jsIncludes c.url "/feed" || jsIncludes c.url "/in/"

/-!
## Content extraction

The `page.evaluate` of `scrapeProfilePosts`
(`src/linkedin-scraper.js` lines 449–562) and `extractPosts` of
`src/server.js` (lines 123–232).  A rendered post container is modelled
by the data the evaluated script reads from it: the `innerText` of each
content-candidate selector (in selector order, `none` when the selector
matches nothing), the time element, the permalink anchors, the render
identifier attributes, the engagement texts and the media elements.
-/

/-- A `time` (or `[datetime]`) element: its `datetime` attribute
(`none` when the attribute is absent) and its `innerText`. -/
structure TimeEl where
  datetime : Option String
  text : String
deriving DecidableEq

/-- First content candidate whose `innerText` is truthy and whose
trimmed text is longer than 10 characters; the accepted value is the
trimmed text (`src/linkedin-scraper.js` lines 488–495,
`src/server.js` lines 156–163). -/
def firstContent : List (Option String) → Option String
  | [] => none
  | c :: rest =>
      match c with
      | some t =>
          if !(t == "") && 10 < (jsTrim t).length then some (jsTrim t)
          else firstContent rest
      | none => firstContent rest

/-- A rendered post container as read by the `scrapeProfilePosts`
evaluate (`src/linkedin-scraper.js` lines 475–554). -/
structure ScrapElem where
  contentCandidates : List (Option String)
  timeEl : Option TimeEl
  linkHref : Option String
  dataUrn : Option String
  dataId : Option String
  socialCountsText : Option String
  commentText : Option String
  imgSrc : Option String
  videoPoster : Option String
deriving DecidableEq

/-- Post date (`src/linkedin-scraper.js` lines 499–500):
`datetime` attribute, else the time element's text, else crawl time. -/
def scrapDate (now : String) (e : ScrapElem) : String :=
  match e.timeEl with
  | some t => if jsTruthyS t.datetime then t.datetime.getD "" else t.text
  | none => now

/-- Post URL (`src/linkedin-scraper.js` lines 502–514): the first
permalink anchor's `href` when an anchor exists (whatever its value),
else a URL synthesized from `data-urn || data-id` when that attribute
is truthy, else empty. -/
def scrapPostUrl (e : ScrapElem) : String :=
  match e.linkHref with
  | some h => h
  | none =>
      let urn := jsOrS e.dataUrn e.dataId
      if jsTruthyS urn then "https://www.linkedin.com/feed/update/" ++ urn.getD ""
      else ""

/-- Likes (`src/linkedin-scraper.js` lines 518–528): numeric pattern in
the social-counts text, absent ⇒ 0. -/
def scrapLikes (e : ScrapElem) : Int :=
  jsNumOrZero e.socialCountsText

/-- Comments (`src/linkedin-scraper.js` lines 530–537): digit pattern
in the comment-button text, absent ⇒ 0. -/
def scrapComments (e : ScrapElem) : Int :=
  jsDigitsOrZero e.commentText

/-- Media URL (`src/linkedin-scraper.js` line 543). -/
def scrapMediaUrl (e : ScrapElem) : String :=
  match e.imgSrc with
  | some src => src
  | none =>
      match e.videoPoster with
      | some poster => poster
      | none => ""

/-- One iteration of the extraction loop of `scrapeProfilePosts`
(`src/linkedin-scraper.js` lines 475–559): `none` when the item is
skipped for lacking content or a post URL.  Note: the content is pushed
untruncated (line 546). -/
def scrapEmit (now : String) (e : ScrapElem) : Option ScraperPost :=
  match firstContent e.contentCandidates with
  | none => none
  | some content =>
      let postUrl := scrapPostUrl e
      if postUrl == "" then none
      else some
        { content := content
          date := scrapDate now e
          postUrl := postUrl
          likes := scrapLikes e
          comments := scrapComments e
          shares := 0
          hasMedia := e.imgSrc.isSome || e.videoPoster.isSome
          mediaUrl := scrapMediaUrl e }

/-- The whole `page.evaluate` of `scrapeProfilePosts`
(`src/linkedin-scraper.js` lines 449–562): process the first
`maxPosts` containers, emitting the non-skipped items in order. -/
def scrapeEvalPosts (now : String) (maxPosts : Nat) (elems : List ScrapElem) :
    List ScraperPost :=
  (elems.take maxPosts).filterMap (scrapEmit now)

/-- A rendered post container as read by `extractPosts` of
`src/server.js` (lines 143–223). -/
structure ServerElem where
  contentCandidates : List (Option String)
  timeEl : Option (Option String)
  linkHref : Option String
  dataUrn : Option String
  reactionAria : Option String
  commentAria : Option String
  socialCountsText : Option String
  hasMediaImg : Bool
  hasVideo : Bool
deriving DecidableEq

/-- One extracted item of `extractPosts` (`src/server.js`
lines 215–223).  `date` is the `datetime` attribute of the time
element, which the code leaves null when the attribute is absent. -/
structure ServerPost where
  content : String
  date : Option String
  postUrl : String
  likes : Int
  comments : Int
  hasMedia : Bool
  type : String
deriving DecidableEq

/-- Post date (`src/server.js` lines 168–169): the time element's
`datetime` attribute when the element exists (null when the attribute
is absent), else crawl time. -/
def serverDate (now : String) (e : ServerElem) : Option String :=
  match e.timeEl with
  | some attr => attr
  | none => some now

/-- Post URL (`src/server.js` lines 172–181): the first permalink
anchor's `href`; when that is empty, a URL synthesized from a truthy
`data-urn`; else empty. -/
def serverPostUrl (e : ServerElem) : String :=
  let u0 := match e.linkHref with
    | some h => h
    | none => ""
  if u0 == "" then
    match e.dataUrn with
    | some urn =>
        if urn == "" then "" else "https://www.linkedin.com/feed/update/" ++ urn
    | none => ""
  else u0

/-- Likes (`src/server.js` lines 184–209): the reaction button's
aria-label first; when that leaves 0, the social-counts text as
backup; absent ⇒ 0. -/
def serverLikes (e : ServerElem) : Int :=
  let l1 := jsNumOrZero e.reactionAria
  if l1 == 0 then jsNumOrZero e.socialCountsText else l1

/-- Comments (`src/server.js` lines 195–199): the comment button's
aria-label; absent ⇒ 0. -/
def serverComments (e : ServerElem) : Int :=
  jsNumOrZero e.commentAria

/-- One iteration of the extraction loop of `extractPosts`
(`src/server.js` lines 143–228): `none` when the item is skipped for
lacking content or a post URL; the content is truncated to 1000
characters (line 216). -/
def serverEmit (now urlType : String) (e : ServerElem) : Option ServerPost :=
  match firstContent e.contentCandidates with
  | none => none
  | some content =>
      let postUrl := serverPostUrl e
      if postUrl == "" then none
      else some
        { content := jsSubstringTo content 1000
          date := serverDate now e
          postUrl := postUrl
          likes := serverLikes e
          comments := serverComments e
          hasMedia := e.hasMediaImg || e.hasVideo
          type := urlType }

/-- `extractPosts` of `src/server.js` (lines 123–232): process the
first `maxPosts` containers, emitting the non-skipped items in order. -/
def extractPosts (now urlType : String) (maxPosts : Nat)
    (elems : List ServerElem) : List ServerPost :=
  (elems.take maxPosts).filterMap (serverEmit now urlType)

/-!
## Login orchestration (`loginToLinkedIn`, `src/linkedin-scraper.js` lines 382–409)

Strategy 1 (cookies) runs only when `process.env.LINKEDIN_COOKIES` is
truthy; strategy 2 (credentials) only when both `CONFIG.LINKEDIN_EMAIL`
and `CONFIG.LINKEDIN_PASSWORD` are truthy.  Each strategy is modelled by
the result it would produce if invoked: its success flag and the ordered
list of URLs it would navigate to.
-/

/-- The configuration read by `loginToLinkedIn`. -/
structure LoginConfig where
  cookiesEnv : Option String
  email : Option String
  password : Option String
deriving DecidableEq

/-- What one login strategy would do if invoked: whether it succeeds
and which URLs it navigates to, in order. -/
structure FlowResult where
  success : Bool
  navigations : List String
deriving DecidableEq

/-- `loginToLinkedIn` (`src/linkedin-scraper.js` lines 382–409),
returning the result together with every navigation performed. -/
def loginToLinkedIn (cfg : LoginConfig) (cookieFlow credFlow : FlowResult) :
    Bool × List String :=
  if jsTruthyS cfg.cookiesEnv then
    if cookieFlow.success then (true, cookieFlow.navigations)
    else if jsTruthyS cfg.email && jsTruthyS cfg.password then
      (credFlow.success, cookieFlow.navigations ++ credFlow.navigations)
    else (false, cookieFlow.navigations)
  else if jsTruthyS cfg.email && jsTruthyS cfg.password then
    (credFlow.success, credFlow.navigations)
  else (false, [])

/-!
## Run orchestration (`runScraper`, `src/linkedin-scraper.js` lines 604–690)

`getActiveProfiles` (lines 49–69) catches a failed source-feed query and
returns `[]` (line 67).  `runScraper` returns early — with a warning but
through the normal path — when the profile list is empty (lines 612–615);
a login failure throws (line 652) and is caught by the outer `catch`
(lines 681–683); each per-profile failure is caught inside the loop and
the loop continues (lines 673–676).
-/

/-- A record of the `Sources` table as mapped by `getActiveProfiles`
(`src/linkedin-scraper.js` lines 58–64). -/
structure SourceRec where
  id : String
  name : String
  profileUrl : String
  group : String
  priority : Int
deriving DecidableEq

/-- `getActiveProfiles` (`src/linkedin-scraper.js` lines 49–69): the
mapped records of a successful query; a store error is caught and
yields `[]`. -/
def getActiveProfiles (q : Except String (List SourceRec)) : List SourceRec :=
  match q with
  | .ok records => records
  | .error _ => []

/-- Observable outcome of one `runScraper` invocation. -/
structure RunReport where
  criticalError : Option String
  earlyNoProfiles : Bool
  sourcesAttempted : Nat
  totalNewPosts : Nat
deriving DecidableEq

/-- `runScraper` (`src/linkedin-scraper.js` lines 604–690),
parameterized by the source-feed query outcome, the login result, and
each profile's scrape result (`.error` = the iteration threw and was
caught by the per-profile `catch`; a thrown login error reaches the
outer `catch` and becomes `criticalError`). -/
def runScraper (q : Except String (List SourceRec)) (loginSuccess : Bool)
    (scrapeResult : Nat → Except String Nat) : RunReport :=
  let profiles := getActiveProfiles q
  if profiles.length == 0 then
    { criticalError := none, earlyNoProfiles := true
      sourcesAttempted := 0, totalNewPosts := 0 }
  else if !loginSuccess then
    { criticalError := some "No se pudo iniciar sesion en LinkedIn"
      earlyNoProfiles := false, sourcesAttempted := 0, totalNewPosts := 0 }
  else
    { criticalError := none
      earlyNoProfiles := false
      sourcesAttempted := profiles.length
      totalNewPosts :=
        ((List.range profiles.length).map (fun i =>
          match scrapeResult i with
          | .ok n => n
          | .error _ => 0)).sum }

/-!
## On-demand multi-URL scraping (`src/server.js` lines 41–84 and 234–404)
-/

/-- `detectUrlType` (`src/server.js` lines 41–48). -/
def detectUrlType (url : String) : String :=
  if jsIncludes url "/in/" then "profile"
  else if jsIncludes url "/company/" then "company"
  else "unknown"

/-- `normalizeUrl` (`src/server.js` lines 51–69). -/
def normalizeUrl (url : String) : String :=
  let u := stripTrailingSlash (jsTrim url)
  let t := detectUrlType u
  if t == "profile" then
    if !(jsIncludes u "/recent-activity/") then u ++ "/recent-activity/all/" else u
  else if t == "company" then
    if !(jsIncludes u "/posts/") then u ++ "/posts/" else u
  else u

/-- `extractAuthorName` (`src/server.js` lines 72–84). -/
def extractAuthorName (url : String) : String :=
  let t := detectUrlType url
  if t == "profile" then
    match matchSegmentAfter "linkedin.com/in/" url with
    | some seg => jsReplaceDashes seg
    | none => "Unknown"
  else if t == "company" then
    match matchSegmentAfter "linkedin.com/company/" url with
    | some seg => jsReplaceDashes seg
    | none => "Unknown Company"
  else "Unknown"

/-- One element of the `urls` request array: a plain string or an
object carrying `url` / `profileUrl` / `Profile URL` and `maxPosts`
(`src/server.js` lines 336–340). -/
inductive UrlInput where
  | str (s : String)
  | obj (url profileUrl profileUrlField : Option String) (maxPosts : Option Nat)
deriving DecidableEq

/-- `urlData.url || urlData.profileUrl || urlData['Profile URL']`
(`src/server.js` line 340). -/
def inputUrl : UrlInput → Option String
  | .str s => jsOrS (some s) (jsOrS none none)
  | .obj url profileUrl profileUrlField _ => jsOrS url (jsOrS profileUrl profileUrlField)

/-- `urlData.maxPosts || maxPostsPerUrl` (`src/server.js` line 369). -/
def inputMaxPosts (u : UrlInput) (d : Nat) : Nat :=
  match u with
  | .str _ => jsOrNat (some d) d
  | .obj _ _ _ mp => jsOrNat mp d

/-- What the navigation-and-scroll phase of one URL produces:
the rendered containers, or the error a thrown step was caught with. -/
inductive SessionNav where
  | ok (elems : List ServerElem)
  | err (msg : String)
deriving DecidableEq

/-- One result entry as pushed into `results`
(`src/server.js` lines 265–281 and 344–361). -/
structure ResultEntry where
  success : Bool
  url : Option String
  urlType : Option String
  authorName : Option String
  postsFound : Option Nat
  posts : List ServerPost
  error : Option String
deriving DecidableEq

/-- `scrapeUrlInSession` (`src/server.js` lines 235–283): navigate,
scroll, extract; any thrown step is caught and yields a failure entry
with an empty `posts` array. -/
def scrapeUrlInSession (now url : String) (maxPosts : Nat) (nav : SessionNav) :
    ResultEntry :=
  let urlType := detectUrlType url
  match nav with
  | .ok elems =>
      let posts := extractPosts now urlType maxPosts elems
      { success := true
        url := some (normalizeUrl url)
        urlType := some urlType
        authorName := some (extractAuthorName url)
        postsFound := some posts.length
        posts := posts
        error := none }
  | .err m =>
      { success := false, url := some url, urlType := none, authorName := none
        postsFound := none, posts := [], error := some m }

/-- One iteration of the URL loop of `scrapeMultipleUrls`
(`src/server.js` lines 335–379): a missing/empty URL or an unknown URL
type pushes a failure entry; otherwise the session scrape result is
pushed. -/
def processUrl (now : String) (maxPP : Nat) (u : UrlInput) (nav : SessionNav) :
    ResultEntry :=
  if jsTruthyS (inputUrl u) then
    let url := (inputUrl u).getD ""
    if detectUrlType url == "unknown" then
      { success := false, url := some url, urlType := none, authorName := none
        postsFound := none, posts := [], error := some "Tipo de URL no soportado" }
    else scrapeUrlInSession now url (inputMaxPosts u maxPP) nav
  else
    { success := false, url := none, urlType := none, authorName := none
      postsFound := none, posts := [], error := some "URL no proporcionada" }

/-- The URL loop, pushing one entry per input, in order; `navs i` is
the navigation outcome of the `i`-th URL. -/
def processAll (now : String) (maxPP : Nat) (navs : Nat → SessionNav) :
    Nat → List UrlInput → List ResultEntry
  | _, [] => []
  | i, u :: rest =>
      processUrl now maxPP u (navs i) :: processAll now maxPP navs (i + 1) rest

/-- The response shape of `scrapeMultipleUrls`
(`src/server.js` lines 383–397). -/
structure MultiSummary where
  success : Bool
  totalUrls : Nat
  successfulUrls : Nat
  failedUrls : Nat
  results : List ResultEntry
  error : Option String
deriving DecidableEq

/-- `scrapeMultipleUrls` (`src/server.js` lines 286–404): when the
browser session and login succeed, every URL is processed in order and
the counts are computed from the entries; a failed session setup is
caught and yields the failure shape with empty `results` (the numeric
fields, absent in the JS failure object, are 0 here). -/
def scrapeMultipleUrls (now : String) (urls : List UrlInput) (maxPP : Nat)
    (sessionOk : Bool) (navs : Nat → SessionNav) : MultiSummary :=
  if sessionOk then
    let results := processAll now maxPP navs 0 urls
    { success := true
      totalUrls := urls.length
      successfulUrls := (results.filter (fun r => r.success)).length
      failedUrls := (results.filter (fun r => !r.success)).length
      results := results
      error := none }
  else
    { success := false, totalUrls := 0, successfulUrls := 0, failedUrls := 0
      results := [], error := some "session" }

/-!
## Concrete inputs used by the witnesses and counterexamples below
-/

/-- A concrete post for the C2 counterexample. -/
def dupPost : ScraperPost :=
  { content := "an interesting update", date := "2024-01-01"
    postUrl := "https://www.linkedin.com/feed/update/urn1"
    likes := 1, comments := 0, shares := 0, hasMedia := false, mediaUrl := "" }

/-- The record an earlier run already wrote for `dupPost`. -/
def dupRec : StoredRec := mkRec "Alice" "https://www.linkedin.com/in/alice" "G1" dupPost

/-- The attempt schedule of the C4 witness: the first attempt throws,
the later ones resolve non-OK. -/
def mixedAttempts : Nat → NavOutcome :=
  fun i => if i == 0 then NavOutcome.threw "timeout" else NavOutcome.nonOk none

/-- The signal vector of the C5 witness: exactly the navigation chrome
and the settings affordance are present. -/
def twoSignals : LoginChecks :=
  { hasGlobalNav := true, hasProfileIcon := true, hasFeedContent := false
    hasSearchBar := false, hasMessaging := false
    url := "https://www.linkedin.com/uas/login" }

/-- The rendered container of the C6 witness. -/
def plainElem : ServerElem :=
  { contentCandidates := [some "a post body well over ten characters"]
    timeEl := some (some "2024-01-02T00:00:00Z")
    linkHref := some "https://www.linkedin.com/posts/alice_x-activity-1"
    dataUrn := none, reactionAria := none, commentAria := none
    socialCountsText := none, hasMediaImg := false, hasVideo := false }

/-- A 1001-character content text for the C7 counterexample. -/
def longText : String := ⟨List.replicate 1001 'a'⟩

/-- A rendered container whose content is 1001 characters long. -/
def longElem : ScrapElem :=
  { contentCandidates := [some longText]
    timeEl := none
    linkHref := some "https://www.linkedin.com/posts/alice_b-activity-2"
    dataUrn := none, dataId := none, socialCountsText := none
    commentText := none, imgSrc := none, videoPoster := none }

/-- A rendered container with no engagement text at all, for the C7
witness. -/
def quietElem : ServerElem :=
  { contentCandidates := [some "quiet words that run past ten characters"]
    timeEl := none
    linkHref := some "https://www.linkedin.com/posts/bob_y-activity-3"
    dataUrn := none, reactionAria := none, commentAria := none
    socialCountsText := none, hasMediaImg := false, hasVideo := false }

/-- The configuration of the C8 witness: no cookies, no email. -/
def bareConfig : LoginConfig :=
  { cookiesEnv := none, email := none, password := some "hunter2" }

/-- A strategy result that would navigate if it were ever invoked. -/
def noisyFlow : FlowResult :=
  { success := true
    navigations := ["https://www.linkedin.com", "https://www.linkedin.com/login"] }

/-- The one active source of the C9 witness. -/
def oneSource : SourceRec :=
  { id := "rec1", name := "Alice"
    profileUrl := "https://www.linkedin.com/in/alice"
    group := "G1", priority := 1 }

/-- The input list of the C10 witness. -/
def oneUrl : List UrlInput :=
  [UrlInput.str "https://www.linkedin.com/in/jane-doe/"]

/-!
## Helper lemmas
-/

theorem parseDigits_nonneg (l : List Char) : 0 ≤ (parseDigits l : Int) :=
  Int.ofNat_nonneg _

theorem jsMatchNum_nonneg (s : String) (v : Int) (h : jsMatchNum s = some v) :
    0 ≤ v := by
  unfold jsMatchNum at h
  rw [Option.map_eq_some'] at h
  obtain ⟨g, _, hg⟩ := h
  exact hg ▸ parseDigits_nonneg _

theorem jsMatchDigits_nonneg (s : String) (v : Int)
    (h : jsMatchDigits s = some v) : 0 ≤ v := by
  unfold jsMatchDigits at h
  rw [Option.map_eq_some'] at h
  obtain ⟨g, _, hg⟩ := h
  exact hg ▸ parseDigits_nonneg _

theorem postExistsL_append_left (store l : List StoredRec) (u : String)
    (h : postExistsL store u = true) : postExistsL (store ++ l) u = true := by
  unfold postExistsL at *
  simp only [List.any_append, h, Bool.true_or]

theorem persistLoop_store_grows (an pu g : String)
    (posts : List ScraperPost) (store : List StoredRec) :
    ∃ added, (persistLoop an pu g store posts).1 = store ++ added := by
  induction posts generalizing store with
  | nil => exact ⟨[], by simp [persistLoop]⟩
  | cons p rest ih =>
      unfold persistLoop
      by_cases hex : postExistsL store p.postUrl = true
      · simpa [hex] using ih store
      · simp only [Bool.not_eq_true] at hex
        obtain ⟨added, hadd⟩ := ih (store ++ [mkRec an pu g p])
        refine ⟨mkRec an pu g p :: added, ?_⟩
        simp [hex, hadd]

theorem persistLoop_all_present (an pu g : String)
    (posts : List ScraperPost) (store : List StoredRec) :
    ∀ p ∈ posts, postExistsL (persistLoop an pu g store posts).1 p.postUrl = true := by
  induction posts generalizing store with
  | nil => intro p hp; cases hp
  | cons q rest ih =>
      intro p hp
      rcases List.mem_cons.mp hp with rfl | hp
      · by_cases hex : postExistsL store p.postUrl = true
        · simp only [persistLoop, hex, if_true]
          obtain ⟨added, hadd⟩ := persistLoop_store_grows an pu g rest store
          rw [hadd]
          exact postExistsL_append_left _ _ _ hex
        · simp only [Bool.not_eq_true] at hex
          simp only [persistLoop, hex, Bool.false_eq_true, if_false]
          obtain ⟨added, hadd⟩ :=
            persistLoop_store_grows an pu g rest (store ++ [mkRec an pu g p])
          rw [hadd]
          apply postExistsL_append_left
          unfold postExistsL
          simp [mkRec]
      · by_cases hex : postExistsL store q.postUrl = true
        · simp only [persistLoop, hex, if_true]
          exact ih store p hp
        · simp only [Bool.not_eq_true] at hex
          simp only [persistLoop, hex, Bool.false_eq_true, if_false]
          exact ih (store ++ [mkRec an pu g q]) p hp

theorem persistLoop_of_all_present (an pu g : String)
    (posts : List ScraperPost) (store : List StoredRec)
    (h : ∀ p ∈ posts, postExistsL store p.postUrl = true) :
    persistLoop an pu g store posts = (store, 0) := by
  induction posts with
  | nil => rfl
  | cons q rest ih =>
      unfold persistLoop
      have hq : postExistsL store q.postUrl = true := h q (by simp)
      simp only [hq, if_true]
      exact ih (fun p hp => h p (by simp [hp]))

theorem postExistsL_false_notin (store : List StoredRec) (u : String)
    (h : postExistsL store u = false) : ∀ r ∈ store, r.postUrl ≠ u := by
  unfold postExistsL at h
  rw [List.any_eq_false] at h
  intro r hr
  simpa using h r hr

/-!
## Claim theorems
-/

/-- C1: running the persist step (the `postExists` check followed by
`savePost`) twice with the identical extracted-post list, against a
store that answers existence queries consistently with prior writes,
saves some count `N ≥ 0` on the first call and exactly 0 on the second
call. -/
theorem persist_idempotent (an pu g : String) (store : List StoredRec)
    (posts : List ScraperPost) :
    persistLoop an pu g (persistLoop an pu g store posts).1 posts
      = ((persistLoop an pu g store posts).1, 0) :=
  persistLoop_of_all_present an pu g posts _
    (persistLoop_all_present an pu g posts store)

/-- C2 (counterexample): the store already holds a record for the
post's canonical URL, but the existence check fails with a store error;
`postExists` reports `false` (src/linkedin-scraper.js line 83) and the
loop writes again — the store then holds two records with the same
canonical URL, contrary to the claim's "including when the existence
check itself fails with a store error". -/
theorem persist_dup_on_storeError_cex :
    (((persistRunE "Alice" "https://www.linkedin.com/in/alice" "G1" [dupRec]
        [(dupPost, QueryOutcome.storeError "rate limited")]).1).filter
      (fun r => r.postUrl == "https://www.linkedin.com/feed/update/urn1")).length
      = 2 := by
  rfl

/-- C2 (amended): when every existence check answers consistently with
the store contents, a write happens only after the check reports the
canonical URL absent, and canonical-URL uniqueness of the store is
preserved by the persist loop; when a check fails with a store error,
`postExists` returns `false` and a duplicate can be written. -/
theorem persist_preserves_unique_urls (an pu g : String)
    (store : List StoredRec) (posts : List ScraperPost)
    (h : (store.map (fun r => r.postUrl)).Nodup) :
    ((persistLoop an pu g store posts).1.map (fun r => r.postUrl)).Nodup := by
  induction posts generalizing store with
  | nil => simpa [persistLoop] using h
  | cons p rest ih =>
      by_cases hex : postExistsL store p.postUrl = true
      · simp only [persistLoop, hex, if_true]
        exact ih store h
      · simp only [Bool.not_eq_true] at hex
        simp only [persistLoop, hex, Bool.false_eq_true, if_false]
        apply ih
        rw [List.map_append, List.nodup_append]
        refine ⟨h, by simp, ?_⟩
        intro a ha hb
        simp only [List.map_cons, List.map_nil, List.mem_singleton] at hb
        obtain ⟨r, hr, hru⟩ := List.mem_map.mp ha
        exact postExistsL_false_notin store p.postUrl hex r hr
          (by rw [hru, hb]; rfl)

/-- Witness for C2's amended theorem at a concrete store and list. -/
theorem persist_preserves_unique_urls_witness :
    (([] : List StoredRec).map (fun r => r.postUrl)).Nodup ∧
    ((persistLoop "Alice" "https://www.linkedin.com/in/alice" "G1" []
        [dupPost]).1.map (fun r => r.postUrl)).Nodup :=
  ⟨by simp, persist_preserves_unique_urls "Alice"
    "https://www.linkedin.com/in/alice" "G1" [] [dupPost] (by simp)⟩

/-- C3: with every navigation attempt failing (throwing or resolving
to a non-OK response), `safeGoto` issues exactly 3 attempts
(`CONFIG.MAX_RETRIES`) and returns `false`; every throwing operation
sits inside the loop's `try`/`catch`, so no exception escapes to the
caller and the only exit after exhaustion is the final
`return false`. -/
theorem safeGoto_exhausts_three_attempts (attempts : Nat → NavOutcome)
    (h : ∀ i, i < 3 → attempts i ≠ NavOutcome.ok) :
    (safeGoto attempts).1 = false ∧ (safeGoto attempts).2.1 = 3 := by
  have h0 := h 0 (by decide)
  have h1 := h 1 (by decide)
  have h2 := h 2 (by decide)
  rcases e0 : attempts 0 with _ | s0 | m0 <;>
  rcases e1 : attempts 1 with _ | s1 | m1 <;>
  rcases e2 : attempts 2 with _ | s2 | m2 <;>
    first
      | exact absurd e0 h0
      | exact absurd e1 h1
      | exact absurd e2 h2
      | simp [safeGoto, safeGotoAux, e0, e1, e2]

/-- Witness for C3 at an always-throwing navigation. -/
theorem safeGoto_exhausts_three_attempts_witness :
    (∀ i, i < 3 → (fun _ => NavOutcome.threw "net::ERR") i ≠ NavOutcome.ok) ∧
    (safeGoto (fun _ => NavOutcome.threw "net::ERR")).1 = false ∧
    (safeGoto (fun _ => NavOutcome.threw "net::ERR")).2.1 = 3 :=
  ⟨fun _ _ hk => NavOutcome.noConfusion hk,
    safeGoto_exhausts_three_attempts _ (fun _ _ hk => NavOutcome.noConfusion hk)⟩

/-- C4 (counterexample): with every attempt resolving to a non-OK
response, all failed attempts are followed immediately by the next
attempt — the awaited-backoff list is empty, where the claim requires
waits of 5000 ms and then 10000 ms (the backoff sits only in the
`catch` arm, src/linkedin-scraper.js lines 143–147, which a non-OK
response never reaches). -/
theorem safeGoto_nonOk_no_backoff_cex :
    safeGoto (fun _ => NavOutcome.nonOk (some 403)) = (false, 3, []) := by
  rfl

/-- C4 (amended): when every attempt fails, the retrier awaits
`(i + 1) * 5000` ms exactly after those non-final attempts that threw;
a failed attempt that merely returned a non-OK response is followed by
the next attempt without any wait. -/
theorem safeGoto_backoff_only_after_throw (attempts : Nat → NavOutcome)
    (h : ∀ i, i < 3 → attempts i ≠ NavOutcome.ok) :
    (safeGoto attempts).2.2 =
      ((List.range 2).filter (fun i => navThrew (attempts i))).map
        (fun i => (i + 1) * 5000) := by
  have h0 := h 0 (by decide)
  have h1 := h 1 (by decide)
  have h2 := h 2 (by decide)
  rcases e0 : attempts 0 with _ | s0 | m0 <;>
  rcases e1 : attempts 1 with _ | s1 | m1 <;>
  rcases e2 : attempts 2 with _ | s2 | m2 <;>
    first
      | exact absurd e0 h0
      | exact absurd e1 h1
      | exact absurd e2 h2
      | simp [safeGoto, safeGotoAux, navThrew, e0, e1, e2,
          List.range_succ]

/-- Witness for C4's amended theorem: one throw then non-OK responses
gives exactly one backoff wait of 5000 ms. -/
theorem safeGoto_backoff_only_after_throw_witness :
    (∀ i, i < 3 → mixedAttempts i ≠ NavOutcome.ok) ∧
    (safeGoto mixedAttempts).2.2 =
      ((List.range 2).filter (fun i => navThrew (mixedAttempts i))).map
        (fun i => (i + 1) * 5000) :=
  ⟨by decide, safeGoto_backoff_only_after_throw mixedAttempts (by decide)⟩

/-- C5 (counterexample): the `checkIfLoggedIn` variant of
`src/server.js` (lines 105–120, cited by the claim) returns `true`
with zero positive DOM signals when the current URL contains `/feed`,
where the claim requires `false` whenever 0 signals are positive
regardless of the URL. -/
theorem server_login_zero_signals_cex :
    serverCheckIfLoggedIn
      { hasGlobalNav := false, hasProfileIcon := false
        url := "https://www.linkedin.com/feed/" } = true := by
  rfl

/-- C5 (amended): the five-signal heuristic of
`src/linkedin-scraper.js` behaves as claimed — true with at least 2
positive signals; true with exactly 1 positive signal and an
authenticated-surface URL; false with 0 positive signals regardless of
the URL.  The reduced two-signal variant of `src/server.js` does not:
it returns true on URL match alone. -/
theorem checkIfLoggedIn_thresholds (c : LoginChecks) :
    (2 ≤ positiveChecks c → checkIfLoggedIn c = true) ∧
    (positiveChecks c = 1 → urlCheckJS c = true → checkIfLoggedIn c = true) ∧
    (positiveChecks c = 0 → checkIfLoggedIn c = false) := by
  refine ⟨fun h => ?_, fun h1 hurl => ?_, fun h0 => ?_⟩
  · have hd : decide (2 ≤ positiveChecks c) = true := decide_eq_true h
    simp [checkIfLoggedIn, hd]
  · have hd : decide (1 ≤ positiveChecks c) = true := by rw [h1]; rfl
    simp [checkIfLoggedIn, hd, hurl]
  · simp [checkIfLoggedIn, h0]

/-- Witness for C5's amended theorem: two positive signals decide the
heuristic positively. -/
theorem checkIfLoggedIn_thresholds_witness :
    2 ≤ positiveChecks twoSignals ∧ checkIfLoggedIn twoSignals = true :=
  ⟨by decide, (checkIfLoggedIn_thresholds twoSignals).1 (by decide)⟩

theorem jsNumOrZero_nonneg (o : Option String) : 0 ≤ jsNumOrZero o := by
  cases o with
  | none => exact le_refl 0
  | some t =>
      cases hm : jsMatchNum t with
      | none => simp [jsNumOrZero, hm]
      | some v => simpa [jsNumOrZero, hm] using jsMatchNum_nonneg t v hm

theorem jsDigitsOrZero_nonneg (o : Option String) : 0 ≤ jsDigitsOrZero o := by
  cases o with
  | none => exact le_refl 0
  | some t =>
      cases hm : jsMatchDigits t with
      | none => simp [jsDigitsOrZero, hm]
      | some v => simpa [jsDigitsOrZero, hm] using jsMatchDigits_nonneg t v hm

theorem serverLikes_nonneg (e : ServerElem) : 0 ≤ serverLikes e := by
  show 0 ≤ if (jsNumOrZero e.reactionAria == 0) = true then
    jsNumOrZero e.socialCountsText else jsNumOrZero e.reactionAria
  split
  · exact jsNumOrZero_nonneg _
  · exact jsNumOrZero_nonneg _

theorem length_jsSubstringTo (s : String) (n : Nat) :
    (jsSubstringTo s n).length = min n s.length := by
  show (s.data.take n).length = min n s.data.length
  exact List.length_take ..

theorem ne_empty_of_length_pos (s : String) (h : 0 < s.length) : s ≠ "" := by
  intro he
  rw [he] at h
  exact Nat.lt_irrefl 0 h

theorem firstContent_long (cands : List (Option String)) (c : String)
    (h : firstContent cands = some c) : 10 < c.length := by
  induction cands with
  | nil => cases h
  | cons o rest ih =>
      cases o with
      | none => exact ih (by simpa [firstContent] using h)
      | some t =>
          simp only [firstContent] at h
          split at h
          · rename_i hcond
            injection h with hh
            rw [← hh]
            exact of_decide_eq_true (Bool.and_elim_right hcond)
          · exact ih h

theorem serverEmit_some_eq (now urlType : String) (e : ServerElem)
    (p : ServerPost) (h : serverEmit now urlType e = some p) :
    ∃ c, firstContent e.contentCandidates = some c ∧
      (serverPostUrl e == "") = false ∧
      p = { content := jsSubstringTo c 1000
            date := serverDate now e
            postUrl := serverPostUrl e
            likes := serverLikes e
            comments := serverComments e
            hasMedia := e.hasMediaImg || e.hasVideo
            type := urlType } := by
  unfold serverEmit at h
  rcases hc : firstContent e.contentCandidates with _ | c
  · rw [hc] at h; cases h
  · rw [hc] at h
    simp only [] at h
    split at h
    · cases h
    · rename_i hu
      rw [Bool.not_eq_true] at hu
      refine ⟨c, rfl, hu, ?_⟩
      injection h with hh
      exact hh.symm

theorem scrapEmit_some_eq (now : String) (e : ScrapElem) (p : ScraperPost)
    (h : scrapEmit now e = some p) :
    ∃ c, firstContent e.contentCandidates = some c ∧
      (scrapPostUrl e == "") = false ∧
      p = { content := c
            date := scrapDate now e
            postUrl := scrapPostUrl e
            likes := scrapLikes e
            comments := scrapComments e
            shares := 0
            hasMedia := e.imgSrc.isSome || e.videoPoster.isSome
            mediaUrl := scrapMediaUrl e } := by
  unfold scrapEmit at h
  rcases hc : firstContent e.contentCandidates with _ | c
  · rw [hc] at h; cases h
  · rw [hc] at h
    simp only [] at h
    split at h
    · cases h
    · rename_i hu
      rw [Bool.not_eq_true] at hu
      refine ⟨c, rfl, hu, ?_⟩
      injection h with hh
      exact hh.symm

theorem beq_empty_false_ne (s : String) (h : (s == "") = false) : s ≠ "" := by
  intro he
  rw [he] at h
  simp at h

/-- C6: both extraction evaluates return at most `maxPosts` items, and
every returned item has a non-empty content string and a non-empty
post URL — items lacking either are skipped, not emitted. -/
theorem extraction_cap_and_nonempty (now urlType : String) (maxPosts : Nat)
    (selems : List ServerElem) (pelems : List ScrapElem) :
    ((extractPosts now urlType maxPosts selems).length ≤ maxPosts ∧
      ∀ p ∈ extractPosts now urlType maxPosts selems,
        p.content ≠ "" ∧ p.postUrl ≠ "") ∧
    ((scrapeEvalPosts now maxPosts pelems).length ≤ maxPosts ∧
      ∀ p ∈ scrapeEvalPosts now maxPosts pelems,
        p.content ≠ "" ∧ p.postUrl ≠ "") := by
  refine ⟨⟨?_, ?_⟩, ?_, ?_⟩
  · exact le_trans (List.length_filterMap_le _ _) (List.length_take_le _ _)
  · intro p hp
    obtain ⟨e, _, hemit⟩ := List.mem_filterMap.mp hp
    obtain ⟨c, hc, hu, rfl⟩ := serverEmit_some_eq now urlType e p hemit
    constructor
    · apply ne_empty_of_length_pos
      rw [length_jsSubstringTo]
      have := firstContent_long _ _ hc
      omega
    · exact beq_empty_false_ne _ hu
  · exact le_trans (List.length_filterMap_le _ _) (List.length_take_le _ _)
  · intro p hp
    obtain ⟨e, _, hemit⟩ := List.mem_filterMap.mp hp
    obtain ⟨c, hc, hu, rfl⟩ := scrapEmit_some_eq now e p hemit
    constructor
    · apply ne_empty_of_length_pos
      show 0 < c.length
      have := firstContent_long _ _ hc
      omega
    · exact beq_empty_false_ne _ hu

/-- Witness for C6 at one concrete rendered container. -/
theorem extraction_cap_and_nonempty_witness :
    (extractPosts "2024" "profile" 5 [plainElem]).length ≤ 5 ∧
    ∃ p, p ∈ extractPosts "2024" "profile" 5 [plainElem] ∧
      p.content ≠ "" ∧ p.postUrl ≠ "" := by
  have h := extraction_cap_and_nonempty "2024" "profile" 5 [plainElem] []
  refine ⟨h.1.1, ?_⟩
  rcases hq : extractPosts "2024" "profile" 5 [plainElem] with _ | ⟨p, rest⟩
  · exact absurd hq (by decide)
  · have hmem : p ∈ extractPosts "2024" "profile" 5 [plainElem] := by
      rw [hq]; exact List.mem_cons_self ..
    exact ⟨p, List.mem_cons_self .., h.1.2 p hmem⟩

set_option maxRecDepth 20000 in
/-- C7 (counterexample): the `scrapeProfilePosts` evaluate of
`src/linkedin-scraper.js` (cited by the claim) pushes the content
untruncated (line 546, no `substring`), so a 1001-character content
yields an extracted post whose content exceeds 1000 characters. -/
theorem scraper_content_unbounded_cex :
    (scrapeEvalPosts "2024-01-01T00:00:00Z" 10 [longElem]).all
      (fun p => p.content.length ≤ 1000) = false := by
  decide

/-- C7 (amended): the on-demand extraction of `src/server.js`
truncates content to 1000 characters; the scheduled extraction of
`src/linkedin-scraper.js` does not bound content length.  In both,
likes and comments are non-negative integers and are 0 when no numeric
engagement text is found. -/
theorem extraction_engagement_and_truncation (now urlType : String)
    (maxPosts : Nat) (selems : List ServerElem) (pelems : List ScrapElem) :
    (∀ p ∈ extractPosts now urlType maxPosts selems,
        p.content.length ≤ 1000 ∧ 0 ≤ p.likes ∧ 0 ≤ p.comments) ∧
    (∀ p ∈ scrapeEvalPosts now maxPosts pelems, 0 ≤ p.likes ∧ 0 ≤ p.comments) ∧
    (∀ e : ServerElem, e.reactionAria = none → e.socialCountsText = none →
      e.commentAria = none → ∀ p, serverEmit now urlType e = some p →
        p.likes = 0 ∧ p.comments = 0) ∧
    (∀ e : ScrapElem, e.socialCountsText = none → e.commentText = none →
      ∀ p, scrapEmit now e = some p → p.likes = 0 ∧ p.comments = 0) := by
  refine ⟨?_, ?_, ?_, ?_⟩
  · intro p hp
    obtain ⟨e, _, hemit⟩ := List.mem_filterMap.mp hp
    obtain ⟨c, hc, hu, rfl⟩ := serverEmit_some_eq now urlType e p hemit
    refine ⟨?_, ?_, ?_⟩
    · show (jsSubstringTo c 1000).length ≤ 1000
      rw [length_jsSubstringTo]
      exact Nat.min_le_left _ _
    · show 0 ≤ serverLikes e
      exact serverLikes_nonneg e
    · show 0 ≤ serverComments e
      exact jsNumOrZero_nonneg _
  · intro p hp
    obtain ⟨e, _, hemit⟩ := List.mem_filterMap.mp hp
    obtain ⟨c, hc, hu, rfl⟩ := scrapEmit_some_eq now e p hemit
    refine ⟨?_, ?_⟩
    · show 0 ≤ scrapLikes e
      exact jsNumOrZero_nonneg _
    · show 0 ≤ scrapComments e
      exact jsDigitsOrZero_nonneg _
  · intro e hr hs hcm p hemit
    obtain ⟨c, hc, hu, rfl⟩ := serverEmit_some_eq now urlType e p hemit
    refine ⟨?_, ?_⟩
    · show serverLikes e = 0
      simp [serverLikes, hr, hs, jsNumOrZero]
    · show serverComments e = 0
      simp [serverComments, hcm, jsNumOrZero]
  · intro e hs hcm p hemit
    obtain ⟨c, hc, hu, rfl⟩ := scrapEmit_some_eq now e p hemit
    refine ⟨?_, ?_⟩
    · show scrapLikes e = 0
      simp [scrapLikes, hs, jsNumOrZero]
    · show scrapComments e = 0
      simp [scrapComments, hcm, jsDigitsOrZero]

/-- Witness for C7's amended theorem: an item with no engagement text
is emitted with both counts equal to 0. -/
theorem extraction_engagement_and_truncation_witness :
    quietElem.reactionAria = none ∧ quietElem.socialCountsText = none ∧
    quietElem.commentAria = none ∧
    ∃ p, serverEmit "2024" "profile" quietElem = some p ∧
      p.likes = 0 ∧ p.comments = 0 := by
  have h := (extraction_engagement_and_truncation "2024" "profile" 5 [] []).2.2.1
  refine ⟨rfl, rfl, rfl, ?_⟩
  rcases hq : serverEmit "2024" "profile" quietElem with _ | p
  · exact absurd hq (by decide)
  · exact ⟨p, rfl, h quietElem rfl rfl rfl p hq⟩

/-- C8: with no cookie material configured and no complete credential
pair, `loginToLinkedIn` skips both strategies and returns failure
having performed no navigation at all — in particular it never reaches
the credential login surface. -/
theorem login_no_nav_when_unconfigured (cfg : LoginConfig)
    (cookieFlow credFlow : FlowResult)
    (hc : cfg.cookiesEnv = none)
    (hcred : cfg.email = none ∨ cfg.password = none) :
    loginToLinkedIn cfg cookieFlow credFlow = (false, []) := by
  unfold loginToLinkedIn
  rw [hc]
  rcases hcred with h | h <;> rw [h] <;> simp [jsTruthyS]

/-- Witness for C8 at a concrete unconfigured setup. -/
theorem login_no_nav_when_unconfigured_witness :
    bareConfig.cookiesEnv = none ∧
    (bareConfig.email = none ∨ bareConfig.password = none) ∧
    loginToLinkedIn bareConfig noisyFlow noisyFlow = (false, []) :=
  ⟨rfl, Or.inl rfl,
    login_no_nav_when_unconfigured bareConfig noisyFlow noisyFlow rfl (Or.inl rfl)⟩

/-- C9 (counterexample): when the source-feed query fails,
`getActiveProfiles` catches the error and returns `[]`
(src/linkedin-scraper.js line 67), and `runScraper` takes the
empty-profile early return (lines 612–615): the run completes through
the normal path (`criticalError = none`), not as a failure abort. -/
theorem enum_failure_completes_normally_cex :
    runScraper (Except.error "ENOTFOUND api.airtable.com") true
        (fun _ => Except.ok 0)
      = { criticalError := none, earlyNoProfiles := true
          sourcesAttempted := 0, totalNewPosts := 0 } := by
  rfl

/-- C9 (amended): a failed source-feed enumeration is swallowed into an
empty source list and the run ends early through the normal path (a
logged warning, no failure abort); an authentication failure is
run-fatal (the thrown error reaches the outer catch and no source is
attempted); every per-source failure is isolated — with login
succeeding, all sources are attempted whatever the individual
outcomes, and the run completes without a critical error. -/
theorem run_fatality_and_isolation (q : Except String (List SourceRec))
    (login : Bool) (scrapeResult : Nat → Except String Nat) :
    (∀ msg, q = Except.error msg →
      runScraper q login scrapeResult =
        { criticalError := none, earlyNoProfiles := true
          sourcesAttempted := 0, totalNewPosts := 0 }) ∧
    (getActiveProfiles q ≠ [] → login = false →
      (runScraper q login scrapeResult).criticalError.isSome = true ∧
      (runScraper q login scrapeResult).sourcesAttempted = 0) ∧
    (getActiveProfiles q ≠ [] → login = true →
      (runScraper q login scrapeResult).criticalError = none ∧
      (runScraper q login scrapeResult).sourcesAttempted
        = (getActiveProfiles q).length) := by
  refine ⟨?_, ?_, ?_⟩
  · intro msg hq
    subst hq
    rfl
  · intro hne hlogin
    have hlen : ((getActiveProfiles q).length == 0) = false := by
      simpa [List.length_eq_zero] using hne
    subst hlogin
    constructor <;> simp [runScraper, hlen]
  · intro hne hlogin
    have hlen : ((getActiveProfiles q).length == 0) = false := by
      simpa [List.length_eq_zero] using hne
    subst hlogin
    constructor <;> simp [runScraper, hlen]

/-- Witness for C9's amended theorem: one active source, login
succeeding, the single source failing — the run still attempts it and
completes without a critical error. -/
theorem run_fatality_and_isolation_witness :
    getActiveProfiles (Except.ok [oneSource]) ≠ [] ∧
    (runScraper (Except.ok [oneSource]) true
      (fun _ => Except.error "detached frame")).criticalError = none ∧
    (runScraper (Except.ok [oneSource]) true
      (fun _ => Except.error "detached frame")).sourcesAttempted
      = (getActiveProfiles (Except.ok [oneSource])).length := by
  have h := (run_fatality_and_isolation (Except.ok [oneSource]) true
    (fun _ => Except.error "detached frame")).2.2 (by decide) rfl
  exact ⟨by decide, h.1, h.2⟩

theorem length_filter_split {α : Type} (p : α → Bool) (l : List α) :
    (l.filter p).length + (l.filter (fun a => !p a)).length = l.length := by
  induction l with
  | nil => rfl
  | cons a t ih =>
      by_cases h : p a = true
      · simp [List.filter_cons, h]
        omega
      · have h' : p a = false := by simpa using h
        simp [List.filter_cons, h']
        omega

theorem processAll_length (now : String) (maxPP : Nat)
    (navs : Nat → SessionNav) (urls : List UrlInput) (k : Nat) :
    (processAll now maxPP navs k urls).length = urls.length := by
  induction urls generalizing k with
  | nil => rfl
  | cons u rest ih => simp [processAll, ih]

theorem processAll_getElem (now : String) (maxPP : Nat)
    (navs : Nat → SessionNav) (urls : List UrlInput) (k i : Nat) :
    (processAll now maxPP navs k urls)[i]?
      = (urls[i]?).map (fun u => processUrl now maxPP u (navs (k + i))) := by
  induction urls generalizing k i with
  | nil => simp [processAll]
  | cons u rest ih =>
      cases i with
      | zero => simp [processAll]
      | succ j =>
          simp only [processAll, List.getElem?_cons_succ]
          rw [ih (k + 1) j]
          have hkj : k + 1 + j = k + (j + 1) := by omega
          rw [hkj]

/-- C10: with the browser session established, `scrapeMultipleUrls`
pushes exactly one result entry per input URL, in input order (the
`i`-th entry is the processed `i`-th input); `totalUrls` equals the
input length; and `successfulUrls + failedUrls = totalUrls`. -/
theorem multiUrl_results_shape (now : String) (urls : List UrlInput)
    (maxPP : Nat) (navs : Nat → SessionNav) :
    (scrapeMultipleUrls now urls maxPP true navs).results.length = urls.length ∧
    (scrapeMultipleUrls now urls maxPP true navs).totalUrls = urls.length ∧
    (scrapeMultipleUrls now urls maxPP true navs).successfulUrls
        + (scrapeMultipleUrls now urls maxPP true navs).failedUrls
      = (scrapeMultipleUrls now urls maxPP true navs).totalUrls ∧
    ∀ i u, urls[i]? = some u →
      (scrapeMultipleUrls now urls maxPP true navs).results[i]?
        = some (processUrl now maxPP u (navs i)) := by
  refine ⟨?_, rfl, ?_, ?_⟩
  · show (processAll now maxPP navs 0 urls).length = urls.length
    exact processAll_length ..
  · show ((processAll now maxPP navs 0 urls).filter (fun r => r.success)).length
        + ((processAll now maxPP navs 0 urls).filter (fun r => !r.success)).length
      = urls.length
    rw [length_filter_split]
    exact processAll_length ..
  · intro i u hu
    show (processAll now maxPP navs 0 urls)[i]? = _
    rw [processAll_getElem]
    simp [hu]

/-- Witness for C10 at a single profile URL. -/
theorem multiUrl_results_shape_witness :
    oneUrl[0]? = some (UrlInput.str "https://www.linkedin.com/in/jane-doe/") ∧
    (scrapeMultipleUrls "2024" oneUrl 10 true
        (fun _ => SessionNav.ok [])).results[0]?
      = some (processUrl "2024" 10
          (UrlInput.str "https://www.linkedin.com/in/jane-doe/")
          ((fun _ => SessionNav.ok []) 0)) ∧
    (scrapeMultipleUrls "2024" oneUrl 10 true
        (fun _ => SessionNav.ok [])).totalUrls = 1 :=
  ⟨rfl,
    (multiUrl_results_shape "2024" oneUrl 10
      (fun _ => SessionNav.ok [])).2.2.2 0 _ rfl,
    (multiUrl_results_shape "2024" oneUrl 10 (fun _ => SessionNav.ok [])).2.1⟩

end LinkedScraper
